import Mathlib

/-!
Verification of the K8s-Lens core: rule-based security/RBAC evaluators,
the three risk-scoring policies, the remediation dispatcher and the fix
plan generator.  Definitions are shallow embeddings of the Go source
(`pkg/enterprise/security.go`, `pkg/enterprise/rbac_analyzer.go`,
`pkg/diagnostics/security_analyzer.go`, `pkg/automation/interfaces.go`,
`pkg/automation/fix_engine.go`, `pkg/automation/patch_generator.go`).
Upstream Kubernetes listing calls are modelled as `Except String` inputs;
`nil` pointers of the Go structs become `Option` fields.
-/

/-- Model of Go `strings.Contains` on lists of characters: `needle` occurs
as a contiguous infix of `haystack`. -/
def containsList (haystack needle : List Char) : Bool :=
  match haystack with
  | [] => needle.isEmpty
  | _ :: rest => needle.isPrefixOf haystack || containsList rest needle

/-- Model of Go `strings.Contains (s, substr)`. -/
def stringsContains (s substr : String) : Bool :=
  containsList s.toList substr.toList

/-! ## Kubernetes resource snapshot model (the fields the evaluators read) -/

/-- Capabilities of a container security context (`corev1.Capabilities`);
only the `Add` list is read by the evaluators. -/
structure Capabilities where
  add : List String
deriving DecidableEq, Repr

/-- Container-level security context (`corev1.SecurityContext`); `Option`
models the Go nil pointers. -/
structure ContainerSecurityContext where
  privileged : Option Bool
  runAsUser : Option Int
  readOnlyRootFilesystem : Option Bool
  allowPrivilegeEscalation : Option Bool
  capabilities : Option Capabilities
deriving DecidableEq, Repr

/-- One container of a pod spec. -/
structure Container where
  name : String
  securityContext : Option ContainerSecurityContext
deriving DecidableEq, Repr

/-- Pod-level security context (`corev1.PodSecurityContext`); the
`seccompProfile` field holds the profile's `Type` string when present. -/
structure PodSecurityContext where
  runAsNonRoot : Option Bool
  seccompProfile : Option String
deriving DecidableEq, Repr

/-- A pod with the fields the evaluators read. -/
structure Pod where
  name : String
  nspace : String
  securityContext : Option PodSecurityContext
  containers : List Container
deriving DecidableEq, Repr

/-- A service with the fields the scanner reads. -/
structure Service where
  name : String
  externalIPs : List String
  serviceType : String
deriving DecidableEq, Repr

/-- A network policy; only its presence is inspected. -/
structure NetworkPolicy where
  name : String
deriving DecidableEq, Repr

/-- An RBAC policy rule (`rbacv1.PolicyRule`); only verbs and resources
are read. -/
structure PolicyRule where
  verbs : List String
  resources : List String
deriving DecidableEq, Repr

/-- A cluster role. -/
structure ClusterRole where
  name : String
  rules : List PolicyRule
deriving DecidableEq, Repr

/-- A namespaced role. -/
structure Role where
  name : String
  rules : List PolicyRule
deriving DecidableEq, Repr

/-- A role reference of a binding (`rbacv1.RoleRef`); only the name is read. -/
structure RoleRef where
  name : String
deriving DecidableEq, Repr

/-- A subject of a binding (`rbacv1.Subject`). -/
structure Subject where
  kind : String
  name : String
deriving DecidableEq, Repr

/-- A cluster role binding. -/
structure ClusterRoleBinding where
  name : String
  roleRef : RoleRef
  subjects : List Subject
deriving DecidableEq, Repr

/-- A namespaced role binding; its subjects are not read by the analyzer. -/
structure RoleBinding where
  name : String
  roleRef : RoleRef
deriving DecidableEq, Repr

/-- A service account; `secrets` holds the names of its explicit secrets. -/
structure ServiceAccount where
  name : String
  secrets : List String
deriving DecidableEq, Repr

namespace Enterprise

/-! ## Go package `enterprise`: `rbac_analyzer.go` and `security.go` -/

/-- Mirrors `enterprise.SecurityIssue` (shared by the RBAC analyzer and the
security scanner). -/
structure SecurityIssue where
  type : String
  severity : String
  resource : String
  description : String
  recommendation : String
deriving DecidableEq, Repr

/-- Mirrors the helper `contains` of `rbac_analyzer.go`. -/
def contains (slice : List String) (item : String) : Bool :=
  slice.any (fun s => s == item)

/-- Mirrors the helper `containsAny` of `rbac_analyzer.go`. -/
def containsAny (slice : List String) (items : List String) : Bool :=
  items.any (fun item => contains slice item)

/-- Mirrors `isDangerousCapability` of `security.go`: exact match against the
eight-entry list (no `CAP_` prefix handling). -/
def isDangerousCapability (cap : String) : Bool :=
  let dangerousCaps := ["SYS_ADMIN", "SYS_PTRACE", "SYS_MODULE", "SYS_RAWIO",
    "NET_ADMIN", "NET_RAW", "IPC_LOCK", "DAC_READ_SEARCH"]
  dangerousCaps.any (fun dangerous => cap == dangerous)

/-- Pod-level issues of `scanPodSecurity` for one pod. -/
def scanPodLevel (pod : Pod) : List SecurityIssue :=
  match pod.securityContext with
  | none =>
      [{ type := "MissingPodSecurityContext", severity := "Medium",
         resource := pod.name,
         description := "Pod does not have a security context defined",
         recommendation := "Define pod-level security context with reasonable defaults" }]
  | some sc =>
      (match sc.runAsNonRoot with
       | none =>
           [{ type := "RunAsRootAllowed", severity := "Medium",
              resource := pod.name,
              description := "Pod can run as root user",
              recommendation := "Set runAsNonRoot to true in security context" }]
       | some b =>
           if b then []
           else
             [{ type := "RunAsRootAllowed", severity := "Medium",
                resource := pod.name,
                description := "Pod can run as root user",
                recommendation := "Set runAsNonRoot to true in security context" }]) ++
      (match sc.seccompProfile with
       | none =>
           [{ type := "MissingSeccompProfile", severity := "Low",
              resource := pod.name,
              description := "Pod does not have seccomp profile defined",
              recommendation := "Define seccomp profile for enhanced security" }]
       | some _ => [])

/-- Container-level issues of `scanPodSecurity` for one container. -/
def scanContainer (podName : String) (container : Container) : List SecurityIssue :=
  match container.securityContext with
  | none =>
      [{ type := "MissingContainerSecurityContext", severity := "Medium",
         resource := podName ++ "/" ++ container.name,
         description := "Container does not have security context defined",
         recommendation := "Define container security context with least privilege" }]
  | some sc =>
      (match sc.privileged with
       | some b =>
           if b then
             [{ type := "PrivilegedContainer", severity := "High",
                resource := podName ++ "/" ++ container.name,
                description := "Container is running in privileged mode",
                recommendation := "Avoid running containers in privileged mode" }]
           else []
       | none => []) ++
      (match sc.runAsUser with
       | some u =>
           if u = 0 then
             [{ type := "RunAsRoot", severity := "Medium",
                resource := podName ++ "/" ++ container.name,
                description := "Container is running as root user",
                recommendation := "Run containers as non-root user" }]
           else []
       | none => []) ++
      (match sc.readOnlyRootFilesystem with
       | none =>
           [{ type := "WritableRootFilesystem", severity := "Low",
              resource := podName ++ "/" ++ container.name,
              description := "Container has writable root filesystem",
              recommendation := "Set readOnlyRootFilesystem to true" }]
       | some b =>
           if b then []
           else
             [{ type := "WritableRootFilesystem", severity := "Low",
                resource := podName ++ "/" ++ container.name,
                description := "Container has writable root filesystem",
                recommendation := "Set readOnlyRootFilesystem to true" }]) ++
      (match sc.capabilities with
       | none => []
       | some caps =>
           caps.add.filterMap (fun cap =>
             if isDangerousCapability cap then
               some { type := "DangerousCapability", severity := "High",
                      resource := podName ++ "/" ++ container.name,
                      description := "Container has dangerous capability: " ++ cap,
                      recommendation := "Remove dangerous capabilities" }
             else none))

/-- Mirrors `scanPodSecurity` of `security.go`: pod-level checks, then the
container loop, pod by pod. -/
def scanPodSecurity (pods : List Pod) : List SecurityIssue :=
  pods.flatMap (fun pod =>
    scanPodLevel pod ++ pod.containers.flatMap (scanContainer pod.name))

/-- Mirrors `scanServiceSecurity` of `security.go`. -/
def scanServiceSecurity (services : List Service) : List SecurityIssue :=
  services.flatMap (fun service =>
    (if service.externalIPs.length > 0 then
       [{ type := "ServiceWithExternalIP", severity := "Medium",
          resource := service.name,
          description := "Service has external IPs configured",
          recommendation := "Review external IP usage for security implications" }]
     else []) ++
    (if service.serviceType = "LoadBalancer" then
       [{ type := "LoadBalancerService", severity := "Low",
          resource := service.name,
          description := "Service uses LoadBalancer type",
          recommendation := "Consider using Ingress instead of LoadBalancer for external access" }]
     else []))

/-- Mirrors `scanNetworkPolicies` of `security.go`: a failed listing is
swallowed (the function returns without adding an issue). -/
def scanNetworkPolicies (npRes : Except String (List NetworkPolicy))
    (nspace : String) : List SecurityIssue :=
  match npRes with
  | .error _ => []
  | .ok networkPolicies =>
      if networkPolicies.length = 0 then
        [{ type := "NoNetworkPolicies", severity := "Medium",
           resource := nspace,
           description := "Namespace has no network policies defined",
           recommendation := "Implement network policies for network segmentation" }]
      else []

/-- Mirrors `calculateComplianceScore` of `security.go`: start at 100,
subtract by severity, floor at 0. -/
def calculateComplianceScore (issues : List SecurityIssue) : Int :=
  let baseScore : Int := issues.foldl (fun acc issue =>
    if issue.severity = "Critical" then acc - 10
    else if issue.severity = "High" then acc - 7
    else if issue.severity = "Medium" then acc - 4
    else if issue.severity = "Low" then acc - 1
    else acc) 100
  if baseScore < 0 then 0 else baseScore

/-- Mirrors `calculateRiskLevelFromScore` of `security.go`. -/
def calculateRiskLevelFromScore (score : Int) : String :=
  if score ≥ 90 then "Low"
  else if score ≥ 70 then "Medium"
  else if score ≥ 50 then "High"
  else "Critical"

/-- Mirrors `generateSecurityRecommendations` of `security.go`. -/
def generateSecurityRecommendations (issues : List SecurityIssue) : List String :=
  let hasPrivilegedContainers := issues.any (fun i => i.type == "PrivilegedContainer")
  let hasRootContainers := issues.any (fun i =>
    i.type == "RunAsRoot" || i.type == "RunAsRootAllowed")
  let hasMissingSecurityContexts := issues.any (fun i =>
    i.type == "MissingPodSecurityContext" || i.type == "MissingContainerSecurityContext")
  let recommendations :=
    (if hasPrivilegedContainers then
       ["Eliminate all privileged containers - they pose significant security risks"]
     else []) ++
    (if hasRootContainers then
       ["Run containers as non-root users to minimize attack surface"]
     else []) ++
    (if hasMissingSecurityContexts then
       ["Define security contexts for all pods and containers"]
     else [])
  if recommendations.length = 0 then
    ["Security posture is good - maintain current security practices"]
  else recommendations

/-- Mirrors `SecurityScanReport` of `security.go`. -/
structure SecurityScanReport where
  nspace : String
  totalPods : Int
  totalServices : Int
  securityIssues : List SecurityIssue
  complianceScore : Int
  riskLevel : String
  recommendations : List String
deriving DecidableEq, Repr

/-- Mirrors `ScanNamespace` of `security.go`; the pod and service listings
are inputs that may have failed, and a failure aborts with a wrapped error.
The network-policy listing happens inside `scanNetworkPolicies`, whose
failure is swallowed there. -/
def ScanNamespace (podsRes : Except String (List Pod))
    (svcsRes : Except String (List Service))
    (npRes : Except String (List NetworkPolicy))
    (nspace : String) : Except String SecurityScanReport :=
  match podsRes with
  | .error e => .error ("failed to list pods: " ++ e)
  | .ok pods =>
    match svcsRes with
    | .error e => .error ("failed to list services: " ++ e)
    | .ok services =>
      let issues := scanPodSecurity pods ++ scanServiceSecurity services ++
        scanNetworkPolicies npRes nspace
      let score := calculateComplianceScore issues
      .ok { nspace := nspace
            totalPods := pods.length
            totalServices := services.length
            securityIssues := issues
            complianceScore := score
            riskLevel := calculateRiskLevelFromScore score
            recommendations := generateSecurityRecommendations issues }

/-! ## RBAC analyzer (`rbac_analyzer.go`) -/

/-- Issues of `analyzeClusterRoles` for one rule of one cluster role:
the wildcard-verb loop, then the wildcard-resource loop, then the combined
dangerous-permission loop over resources. -/
def analyzeClusterRoleRule (name : String) (rule : PolicyRule) : List SecurityIssue :=
  (rule.verbs.filterMap (fun verb =>
    if verb = "*" then
      some { type := "WildcardVerb", severity := "High", resource := name,
             description := "ClusterRole '" ++ name ++ "' uses wildcard verb '*'",
             recommendation := "Replace wildcard verbs with specific actions" }
    else none)) ++
  (rule.resources.filterMap (fun res =>
    if res = "*" then
      some { type := "WildcardResource", severity := "High", resource := name,
             description := "ClusterRole '" ++ name ++ "' uses wildcard resource '*'",
             recommendation := "Replace wildcard resources with specific resource types" }
    else none)) ++
  (rule.resources.flatMap (fun res =>
    (if res = "secrets" && containsAny rule.verbs ["create", "update", "patch", "delete"] then
       [{ type := "DangerousSecretPermission", severity := "High", resource := name,
          description := "ClusterRole '" ++ name ++ "' has dangerous permissions on secrets",
          recommendation := "Review and restrict secret permissions" }]
     else []) ++
    (if res = "pods/exec" && contains rule.verbs "create" then
       [{ type := "PodExecPermission", severity := "Medium", resource := name,
          description := "ClusterRole '" ++ name ++ "' can execute commands in pods",
          recommendation := "Restrict pod exec permissions to trusted users" }]
     else [])))

/-- Mirrors `analyzeClusterRoles` of `rbac_analyzer.go`. -/
def analyzeClusterRoles (clusterRoles : List ClusterRole) : List SecurityIssue :=
  clusterRoles.flatMap (fun clusterRole =>
    clusterRole.rules.flatMap (analyzeClusterRoleRule clusterRole.name))

/-- Mirrors `analyzeRoles` of `rbac_analyzer.go`. -/
def analyzeRoles (nspace : String) (roles : List Role) : List SecurityIssue :=
  roles.flatMap (fun role =>
    role.rules.flatMap (fun rule =>
      rule.verbs.filterMap (fun verb =>
        if verb = "*" then
          some { type := "WildcardVerbInRole", severity := "Medium",
                 resource := nspace ++ "/" ++ role.name,
                 description := "Role '" ++ role.name ++ "' in namespace '" ++ nspace ++
                   "' uses wildcard verb '*'",
                 recommendation := "Replace wildcard verbs with specific actions" }
        else none)))

/-- Issue emitted for a `ClusterRoleBinding` subject that is a service
account whose name contains `"default"`. -/
def defaultServiceAccountIssue (bindingName : String) : SecurityIssue :=
  { type := "DefaultServiceAccountBinding", severity := "High",
    resource := bindingName,
    description := "ClusterRoleBinding '" ++ bindingName ++ "' binds to default service account",
    recommendation := "Avoid binding cluster roles to default service accounts" }

/-- Mirrors `analyzeClusterRoleBindings` of `rbac_analyzer.go`: the
cluster-admin check, then the subject loop. -/
def analyzeClusterRoleBindings (bindings : List ClusterRoleBinding) : List SecurityIssue :=
  bindings.flatMap (fun binding =>
    (if binding.roleRef.name = "cluster-admin" then
       [{ type := "ClusterAdminBinding", severity := "Critical",
          resource := binding.name,
          description := "ClusterRoleBinding '" ++ binding.name ++ "' grants cluster-admin privileges",
          recommendation := "Review cluster-admin bindings and use least privilege" }]
     else []) ++
    binding.subjects.filterMap (fun subject =>
      if subject.kind == "ServiceAccount" && stringsContains subject.name "default" then
        some (defaultServiceAccountIssue binding.name)
      else none))

/-- Issue emitted for a `RoleBinding` whose role reference name contains
`"admin"`. -/
def adminRoleBindingIssue (nspace bindingName : String) : SecurityIssue :=
  { type := "AdminRoleBinding", severity := "Medium",
    resource := nspace ++ "/" ++ bindingName,
    description := "RoleBinding '" ++ bindingName ++ "' in namespace '" ++ nspace ++
      "' uses admin role",
    recommendation := "Review admin role usage and apply least privilege" }

/-- Mirrors `analyzeRoleBindings` of `rbac_analyzer.go`. -/
def analyzeRoleBindings (nspace : String) (bindings : List RoleBinding) : List SecurityIssue :=
  bindings.filterMap (fun binding =>
    if stringsContains binding.roleRef.name "admin" then
      some (adminRoleBindingIssue nspace binding.name)
    else none)

/-- Mirrors `analyzeServiceAccounts` of `rbac_analyzer.go`. -/
def analyzeServiceAccounts (serviceAccounts : List ServiceAccount) : List SecurityIssue :=
  serviceAccounts.filterMap (fun sa =>
    if sa.secrets.length = 0 then
      some { type := "ServiceAccountWithoutSecrets", severity := "Low",
             resource := sa.name,
             description := "ServiceAccount '" ++ sa.name ++ "' has no explicitly defined secrets",
             recommendation := "Consider defining explicit secrets for service accounts" }
    else none)

/-- Mirrors `calculateRiskLevel` of `rbac_analyzer.go`: presence-based
tiering over the severity counts. -/
def calculateRiskLevel (issues : List SecurityIssue) : String :=
  let criticalCount := (issues.filter (fun i => i.severity == "Critical")).length
  let highCount := (issues.filter (fun i => i.severity == "High")).length
  let mediumCount := (issues.filter (fun i => i.severity == "Medium")).length
  if criticalCount > 0 then "Critical"
  else if highCount > 0 then "High"
  else if mediumCount > 0 then "Medium"
  else "Low"

/-- Mirrors `generateRecommendations` of `rbac_analyzer.go`. -/
def generateRecommendations (issues : List SecurityIssue) : List String :=
  let hasWildcard := issues.any (fun i =>
    i.type == "WildcardVerb" || i.type == "WildcardResource" || i.type == "WildcardVerbInRole")
  let hasClusterAdmin := issues.any (fun i => i.type == "ClusterAdminBinding")
  let hasDangerousPermissions := issues.any (fun i =>
    i.type == "DangerousSecretPermission" || i.type == "PodExecPermission")
  let recommendations :=
    (if hasWildcard then
       ["Replace all wildcard permissions with specific verbs and resources"]
     else []) ++
    (if hasClusterAdmin then
       ["Review and minimize cluster-admin bindings - use least privilege principles"]
     else []) ++
    (if hasDangerousPermissions then
       ["Restrict dangerous permissions (secrets, pod exec) to trusted principals only"]
     else [])
  if recommendations.length = 0 then
    ["RBAC configuration appears secure - maintain current security practices"]
  else recommendations

/-- Mirrors `RBACReport` of `rbac_analyzer.go`. -/
structure RBACReport where
  nspace : String
  clusterRoles : Int
  roles : Int
  clusterRoleBindings : Int
  roleBindings : Int
  serviceAccounts : Int
  securityIssues : List SecurityIssue
  recommendations : List String
  riskLevel : String
deriving DecidableEq, Repr

/-- Mirrors `AnalyzeNamespaceRBAC` of `rbac_analyzer.go`; the five listing
calls are inputs that may have failed, checked in source order, and any
failure aborts with a wrapped error and no report. -/
def AnalyzeNamespaceRBAC (crRes : Except String (List ClusterRole))
    (rolesRes : Except String (List Role))
    (crbRes : Except String (List ClusterRoleBinding))
    (rbRes : Except String (List RoleBinding))
    (saRes : Except String (List ServiceAccount))
    (nspace : String) : Except String RBACReport :=
  match crRes with
  | .error e => .error ("failed to list cluster roles: " ++ e)
  | .ok clusterRoles =>
    match rolesRes with
    | .error e => .error ("failed to list roles: " ++ e)
    | .ok roles =>
      match crbRes with
      | .error e => .error ("failed to list cluster role bindings: " ++ e)
      | .ok clusterRoleBindings =>
        match rbRes with
        | .error e => .error ("failed to list role bindings: " ++ e)
        | .ok roleBindings =>
          match saRes with
          | .error e => .error ("failed to list service accounts: " ++ e)
          | .ok serviceAccounts =>
            let issues := analyzeClusterRoles clusterRoles ++
              analyzeRoles nspace roles ++
              analyzeClusterRoleBindings clusterRoleBindings ++
              analyzeRoleBindings nspace roleBindings ++
              analyzeServiceAccounts serviceAccounts
            .ok { nspace := nspace
                  clusterRoles := clusterRoles.length
                  roles := roles.length
                  clusterRoleBindings := clusterRoleBindings.length
                  roleBindings := roleBindings.length
                  serviceAccounts := serviceAccounts.length
                  securityIssues := issues
                  recommendations := generateRecommendations issues
                  riskLevel := calculateRiskLevel issues }

end Enterprise

namespace Diagnostics

/-! ## Go package `diagnostics`: `security_analyzer.go` (per-pod path) -/

/-- Mirrors `diagnostics.SecurityIssue`. -/
structure SecurityIssue where
  level : String
  title : String
  description : String
  remediation : String
deriving DecidableEq, Repr

/-- Mirrors `diagnostics.SecurityWarning`. -/
structure SecurityWarning where
  level : String
  title : String
  description : String
deriving DecidableEq, Repr

/-- Mirrors `diagnostics.SecurityAnalysis`. -/
structure SecurityAnalysis where
  status : String
  riskLevel : String
  score : Int
deriving DecidableEq, Repr

/-- Mirrors `diagnostics.SecurityReport`. -/
structure SecurityReport where
  podName : String
  nspace : String
  analysis : SecurityAnalysis
  issues : List SecurityIssue
  warnings : List SecurityWarning
  recommendations : List String
deriving DecidableEq, Repr

/-- Mirrors `diagnostics.isDangerousCapability`: exact match against the
four `CAP_`-prefixed entries. -/
def isDangerousCapability (cap : String) : Bool :=
  let dangerousCaps := ["CAP_SYS_ADMIN", "CAP_NET_RAW", "CAP_SYS_MODULE", "CAP_SYS_PTRACE"]
  dangerousCaps.any (fun dangerous => cap == dangerous)

/-- Mirrors `analyzeSecurityContext`: pod-level issues and warnings. -/
def analyzeSecurityContext (pod : Pod) : List SecurityIssue × List SecurityWarning :=
  match pod.securityContext with
  | none =>
      ([{ level := "High", title := "No Pod Security Context",
          description := "Pod is running without any security context",
          remediation := "Add securityContext with runAsNonRoot and seccompProfile" }], [])
  | some sc =>
      ((match sc.runAsNonRoot with
        | none =>
            [{ level := "High", title := "Running as Root",
               description := "Pod may be running as root user",
               remediation := "Set runAsNonRoot: true in securityContext" }]
        | some b =>
            if b then []
            else
              [{ level := "High", title := "Running as Root",
                 description := "Pod may be running as root user",
                 remediation := "Set runAsNonRoot: true in securityContext" }]),
       (match sc.seccompProfile with
        | none =>
            [{ level := "Medium", title := "No Seccomp Profile",
               description := "Pod is not using runtime default seccomp profile" }]
        | some t =>
            if t = "RuntimeDefault" then []
            else
              [{ level := "Medium", title := "No Seccomp Profile",
                 description := "Pod is not using runtime default seccomp profile" }]))

/-- Issues and warnings of `analyzeContainerSecurity` for the container at
index `i`. -/
def analyzeContainer (i : Nat) (container : Container) :
    List SecurityIssue × List SecurityWarning :=
  match container.securityContext with
  | none =>
      ([{ level := "High",
          title := "Container " ++ toString i ++ ": No Security Context",
          description := "Container is running without security context",
          remediation := "Add securityContext with readOnlyRootFilesystem and allowPrivilegeEscalation: false" }],
       [])
  | some sc =>
      ((match sc.allowPrivilegeEscalation with
        | none =>
            [{ level := "High",
               title := "Container " ++ toString i ++ ": Privilege Escalation Allowed",
               description := "Container can escalate privileges",
               remediation := "Set allowPrivilegeEscalation: false" }]
        | some b =>
            if b then
              [{ level := "High",
                 title := "Container " ++ toString i ++ ": Privilege Escalation Allowed",
                 description := "Container can escalate privileges",
                 remediation := "Set allowPrivilegeEscalation: false" }]
            else []) ++
       (match sc.privileged with
        | some b =>
            if b then
              [{ level := "Critical",
                 title := "Container " ++ toString i ++ ": Privileged Mode",
                 description := "Container is running in privileged mode",
                 remediation := "Avoid running containers in privileged mode" }]
            else []
        | none => []) ++
       (match sc.capabilities with
        | none => []
        | some caps =>
            caps.add.filterMap (fun cap =>
              if isDangerousCapability cap then
                some { level := "High",
                       title := "Container " ++ toString i ++ ": Dangerous Capability " ++ cap,
                       description := "Container has dangerous capability added",
                       remediation := "Remove unnecessary capabilities" }
              else none)),
       (match sc.readOnlyRootFilesystem with
        | none =>
            [{ level := "Medium",
               title := "Container " ++ toString i ++ ": Writable Root Filesystem",
               description := "Container has writable root filesystem" }]
        | some b =>
            if b then []
            else
              [{ level := "Medium",
                 title := "Container " ++ toString i ++ ": Writable Root Filesystem",
                 description := "Container has writable root filesystem" }]))

/-- Mirrors `analyzeContainerSecurity`: the indexed container loop, issues
and warnings each appended in loop order. -/
def analyzeContainerSecurity (pod : Pod) : List SecurityIssue × List SecurityWarning :=
  (pod.containers.enum.flatMap (fun p => (analyzeContainer p.1 p.2).1),
   pod.containers.enum.flatMap (fun p => (analyzeContainer p.1 p.2).2))

/-- Score computation of `calculateRiskScore`: the weighted deductions and
the floor at 0. -/
def riskScoreValue (issues : List SecurityIssue) (warnings : List SecurityWarning) : Int :=
  let afterIssues : Int := issues.foldl (fun acc issue =>
    if issue.level = "Critical" then acc - 30
    else if issue.level = "High" then acc - 20
    else if issue.level = "Medium" then acc - 10
    else if issue.level = "Low" then acc - 5
    else acc) 100
  let afterWarnings : Int := warnings.foldl (fun acc warning =>
    if warning.level = "High" then acc - 10
    else if warning.level = "Medium" then acc - 5
    else if warning.level = "Low" then acc - 2
    else acc) afterIssues
  if afterWarnings < 0 then 0 else afterWarnings

/-- Mirrors `calculateRiskScore`: the weighted deductions, the floor at 0,
the tier thresholds and the score-gated recommendations. -/
def calculateRiskScore (issues : List SecurityIssue) (warnings : List SecurityWarning) :
    SecurityAnalysis × List String :=
  let score := riskScoreValue issues warnings
  let analysis : SecurityAnalysis :=
    if score ≥ 80 then { status := "Secure", riskLevel := "Low", score := score }
    else if score ≥ 60 then
      { status := "Needs Improvement", riskLevel := "Medium", score := score }
    else if score ≥ 40 then { status := "Vulnerable", riskLevel := "High", score := score }
    else { status := "Highly Vulnerable", riskLevel := "Critical", score := score }
  let recommendations :=
    if score < 80 then
      ["Implement security context with runAsNonRoot and readOnlyRootFilesystem",
       "Use seccomp profiles and disable privilege escalation"]
    else []
  (analysis, recommendations)

/-- Report assembly of `AnalyzePodSecurity` once the pod has been fetched. -/
def analyzePodPure (pod : Pod) : SecurityReport :=
  let podLevel := analyzeSecurityContext pod
  let containerLevel := analyzeContainerSecurity pod
  let issues := podLevel.1 ++ containerLevel.1
  let warnings := podLevel.2 ++ containerLevel.2
  let scored := calculateRiskScore issues warnings
  { podName := pod.name
    nspace := pod.nspace
    analysis := scored.1
    issues := issues
    warnings := warnings
    recommendations := scored.2 }

/-- Mirrors `AnalyzePodSecurity`: a failed pod fetch aborts with a wrapped
error and no report. -/
def AnalyzePodSecurity (podName : String) (podRes : Except String Pod) :
    Except String SecurityReport :=
  match podRes with
  | .error e => .error ("failed to get pod " ++ podName ++ ": " ++ e)
  | .ok pod => .ok (analyzePodPure pod)

end Diagnostics

namespace Automation

/-! ## Go package `automation`: `interfaces.go`, `fix_engine.go`,
`patch_generator.go` -/

/-- Mirrors `automation.RemediationResult`; `duration` is the
`time.Duration` field in nanoseconds. -/
structure RemediationResult where
  success : Bool
  action : String
  resource : String
  message : String
  duration : Int
deriving DecidableEq, Repr

/-- Model of the `Remediator` interface: its capability test and the
outcome of its `Remediate` method (a result pointer and an error). -/
structure Remediator where
  canFix : String → Bool
  remediate : String → String → Option RemediationResult × Option String

/-- Mirrors `AutoRemediate` of `interfaces.go`: scan the registry in
registration order, return the first matching remediator's result; on no
match return the failed result with a nil error. -/
def AutoRemediate (remediators : List Remediator)
    (issueType resource nspace : String) : Option RemediationResult × Option String :=
  match remediators with
  | [] =>
      (some { success := false, action := "none", resource := resource,
              message := "No automediation available for issue type: " ++ issueType,
              duration := 0 }, none)
  | remediator :: rest =>
      if remediator.canFix issueType then remediator.remediate resource nspace
      else AutoRemediate rest issueType resource nspace

/-- Mirrors `automation.Fix`. -/
structure Fix where
  type : String
  description : String
  action : String
  yamlPatch : String
  riskLevel : String
  backupPlan : String
deriving DecidableEq, Repr

/-- Mirrors `automation.FixPlan`. -/
structure FixPlan where
  resourceType : String
  resourceName : String
  nspace : String
  fixes : List Fix
  risks : List String
  confidence : Int
  preview : String
deriving DecidableEq, Repr

/-- Mirrors `GenerateResourceLimitsPatch` of `patch_generator.go`. -/
def GenerateResourceLimitsPatch : String :=
  "\nspec:\n  template:\n    spec:\n      containers:\n      - name: \"*\"\n        resources:\n          limits:\n            cpu: \"500m\"\n            memory: \"512Mi\"\n          requests:\n            cpu: \"100m\"\n            memory: \"128Mi\"\n"

/-- Mirrors `GenerateProbePatch` of `patch_generator.go`. -/
def GenerateProbePatch : String :=
  "\nspec:\n  template:\n    spec:\n      containers:\n      - name: \"*\"\n        livenessProbe:\n          httpGet:\n            path: /health\n            port: 8080\n          initialDelaySeconds: 30\n          periodSeconds: 10\n        readinessProbe:\n          httpGet:\n            path: /ready\n            port: 8080\n          initialDelaySeconds: 5\n          periodSeconds: 5\n"

/-- Mirrors `GenerateSecurityContextPatch` of `patch_generator.go`. -/
def GenerateSecurityContextPatch : String :=
  "\nspec:\n  template:\n    spec:\n      securityContext:\n        runAsNonRoot: true\n        runAsUser: 1000\n        seccompProfile:\n          type: RuntimeDefault\n      containers:\n      - name: \"*\"\n        securityContext:\n          allowPrivilegeEscalation: false\n          readOnlyRootFilesystem: true\n          capabilities:\n            drop:\n            - ALL\n"

/-- Mirrors `generateFixForIssue` of `fix_engine.go`: the closed
three-entry table; any other string yields no fix.  The resource
parameters are accepted and ignored, as in the source. -/
def generateFixForIssue (issue resourceType resourceName nspace : String) : Option Fix :=
  if issue = "Missing resource limits" then
    some { type := "Resource Configuration",
           description := "Add default resource limits to prevent resource exhaustion",
           action := "Patch resource configuration",
           yamlPatch := GenerateResourceLimitsPatch,
           riskLevel := "Low",
           backupPlan := "Rollback to previous resource configuration" }
  else if issue = "High restart count" then
    some { type := "Probe Configuration",
           description := "Add liveness and readiness probes to improve container health checks",
           action := "Add health check probes",
           yamlPatch := GenerateProbePatch,
           riskLevel := "Medium",
           backupPlan := "Remove probes and restart containers" }
  else if issue = "Security context missing" then
    some { type := "Security Hardening",
           description := "Add security context to run as non-root user",
           action := "Update security context",
           yamlPatch := GenerateSecurityContextPatch,
           riskLevel := "Low",
           backupPlan := "Revert security context changes" }
  else none

/-- Mirrors `generatePreview` of `fix_engine.go`; it reads the plan's
`Risks` field, which is still empty when the source calls it. -/
def generatePreview (plan : FixPlan) : String :=
  "Fix Plan for " ++ plan.resourceType ++ "/" ++ plan.resourceName ++
    " in namespace " ++ plan.nspace ++ "\n" ++
  String.mk (List.replicate 65 (Char.ofNat 61)) ++ "\n\n" ++
  String.join (plan.fixes.enum.map (fun p =>
    "Fix " ++ toString (p.1 + 1) ++ ": " ++ p.2.type ++ "\n" ++
    "Description: " ++ p.2.description ++ "\n" ++
    "Action: " ++ p.2.action ++ "\n" ++
    "Risk Level: " ++ p.2.riskLevel ++ "\n" ++
    "YAML Patch:\n" ++ p.2.yamlPatch ++ "\n" ++
    "Backup Plan: " ++ p.2.backupPlan ++ "\n" ++
    "---\n")) ++
  "Overall Confidence: " ++ toString plan.confidence ++ "%\n" ++
  "Risks to Consider:\n" ++
  String.join (plan.risks.map (fun risk => "- " ++ risk ++ "\n"))

/-- The extra warning `assessRisks` appends when more than three fixes are
generated. -/
def incrementalWarning : String :=
  "Multiple changes being applied at once - consider applying fixes incrementally"

/-- Mirrors `assessRisks` of `fix_engine.go`: one warning per High or
Medium risk fix, plus the incremental warning when more than 3 fixes. -/
def assessRisks (plan : FixPlan) : List String :=
  (plan.fixes.filterMap (fun fix =>
    if fix.riskLevel = "High" then
      some ("High risk fix: " ++ fix.type ++ " - " ++ fix.description)
    else if fix.riskLevel = "Medium" then
      some ("Medium risk fix: " ++ fix.type ++ " - may cause temporary downtime")
    else none)) ++
  (if plan.fixes.length > 3 then [incrementalWarning] else [])

/-- Mirrors `GenerateFix` of `fix_engine.go`: fixes from the table, then
the preview (with `Risks` still empty), then the risks; the error is
always nil. -/
def GenerateFix (resourceType resourceName nspace : String)
    (issues : List String) : FixPlan × Option String :=
  let fixes := issues.filterMap (fun issue =>
    generateFixForIssue issue resourceType resourceName nspace)
  let plan0 : FixPlan :=
    { resourceType := resourceType, resourceName := resourceName,
      nspace := nspace, fixes := fixes, risks := [], confidence := 75,
      preview := "" }
  let plan1 := { plan0 with preview := generatePreview plan0 }
  ({ plan1 with risks := assessRisks plan1 }, none)

end Automation

/-! ## Specification-side definitions (from §4.2 of the spec and the
claims), for comparison against the source embeddings -/

/-- Clamp an integer into `[lo, hi]`. -/
def clamp (x lo hi : Int) : Int := min (max x lo) hi

/-- The four-value severity enumeration of the spec's data model. -/
def severityEnum : List String := ["Critical", "High", "Medium", "Low"]

/-- Modelled from the spec: security-scan compliance weights
`{Critical:10, High:7, Medium:4, Low:1}`. -/
def specComplianceWeight (severity : String) : Int :=
  if severity = "Critical" then 10
  else if severity = "High" then 7
  else if severity = "Medium" then 4
  else if severity = "Low" then 1
  else 0

/-- Modelled from the spec: per-pod issue weights
`{Critical:30, High:20, Medium:10, Low:5}`. -/
def specPodIssueWeight (level : String) : Int :=
  if level = "Critical" then 30
  else if level = "High" then 20
  else if level = "Medium" then 10
  else if level = "Low" then 5
  else 0

/-- Modelled from the spec: per-pod warning weights
`{High:10, Medium:5, Low:2}`. -/
def specPodWarningWeight (level : String) : Int :=
  if level = "High" then 10
  else if level = "Medium" then 5
  else if level = "Low" then 2
  else 0

/-- The capability set claimed by the spec: the eight bare names or their
`CAP_`-prefixed equivalents. -/
def claimedDangerousCaps : List String :=
  let base := ["SYS_ADMIN", "SYS_PTRACE", "SYS_MODULE", "SYS_RAWIO",
    "NET_ADMIN", "NET_RAW", "IPC_LOCK", "DAC_READ_SEARCH"]
  base ++ base.map (fun c => "CAP_" ++ c)

/-! ## Concrete fixtures used by witnesses and counterexamples -/

/-- A remediator supporting exactly `CrashLoopBackOff`, first in the
two-element registry of the dispatcher-determinism scenario. -/
def R1 : Automation.Remediator :=
  { canFix := fun issueType => issueType == "CrashLoopBackOff"
    remediate := fun resource _ =>
      (some { success := true, action := "restart_pod", resource := resource,
              message := "pod restarted by the first remediator", duration := 0 }, none) }

/-- A second remediator also supporting `CrashLoopBackOff`, never selected
while `R1` precedes it. -/
def R2 : Automation.Remediator :=
  { canFix := fun issueType => issueType == "CrashLoopBackOff"
    remediate := fun resource _ =>
      (some { success := true, action := "restart_pod", resource := resource,
              message := "pod restarted by the second remediator", duration := 0 }, none) }

/-! ## Helper lemmas -/

/-- Folding the compliance-score deductions equals subtracting the summed
spec weights. -/
theorem complianceFoldl_eq (issues : List Enterprise.SecurityIssue) :
    ∀ acc : Int,
      issues.foldl (fun acc issue =>
        if issue.severity = "Critical" then acc - 10
        else if issue.severity = "High" then acc - 7
        else if issue.severity = "Medium" then acc - 4
        else if issue.severity = "Low" then acc - 1
        else acc) acc =
      acc - (issues.map (fun i => specComplianceWeight i.severity)).sum := by
  induction issues with
  | nil => intro acc; simp
  | cons i rest ih =>
      intro acc
      simp only [List.foldl_cons, List.map_cons, List.sum_cons]
      rw [ih]
      unfold specComplianceWeight
      split_ifs <;> ring

/-- Folding the per-pod issue deductions equals subtracting the summed
spec weights. -/
theorem podIssueFoldl_eq (issues : List Diagnostics.SecurityIssue) :
    ∀ acc : Int,
      issues.foldl (fun acc issue =>
        if issue.level = "Critical" then acc - 30
        else if issue.level = "High" then acc - 20
        else if issue.level = "Medium" then acc - 10
        else if issue.level = "Low" then acc - 5
        else acc) acc =
      acc - (issues.map (fun i => specPodIssueWeight i.level)).sum := by
  induction issues with
  | nil => intro acc; simp
  | cons i rest ih =>
      intro acc
      simp only [List.foldl_cons, List.map_cons, List.sum_cons]
      rw [ih]
      unfold specPodIssueWeight
      split_ifs <;> ring

/-- Folding the per-pod warning deductions equals subtracting the summed
spec weights. -/
theorem podWarningFoldl_eq (warnings : List Diagnostics.SecurityWarning) :
    ∀ acc : Int,
      warnings.foldl (fun acc warning =>
        if warning.level = "High" then acc - 10
        else if warning.level = "Medium" then acc - 5
        else if warning.level = "Low" then acc - 2
        else acc) acc =
      acc - (warnings.map (fun w => specPodWarningWeight w.level)).sum := by
  induction warnings with
  | nil => intro acc; simp
  | cons w rest ih =>
      intro acc
      simp only [List.foldl_cons, List.map_cons, List.sum_cons]
      rw [ih]
      unfold specPodWarningWeight
      split_ifs <;> ring

/-- Every compliance weight is nonnegative. -/
theorem specComplianceWeight_nonneg (s : String) : 0 ≤ specComplianceWeight s := by
  unfold specComplianceWeight; split_ifs <;> norm_num

/-- Every per-pod issue weight is nonnegative. -/
theorem specPodIssueWeight_nonneg (s : String) : 0 ≤ specPodIssueWeight s := by
  unfold specPodIssueWeight; split_ifs <;> norm_num

/-- Every per-pod warning weight is nonnegative. -/
theorem specPodWarningWeight_nonneg (s : String) : 0 ≤ specPodWarningWeight s := by
  unfold specPodWarningWeight; split_ifs <;> norm_num

/-- Flooring at 0 agrees with `clamp` into `[0, 100]` when the value cannot
exceed 100. -/
theorem floor_eq_clamp (x : Int) (hx : x ≤ 100) :
    (if x < 0 then 0 else x) = clamp x 0 100 := by
  unfold clamp
  rcases lt_or_le x 0 with h | h
  · rw [if_pos h, max_eq_right h.le, min_eq_left (by norm_num : (0 : Int) ≤ 100)]
  · rw [if_neg (not_lt.mpr h), max_eq_left h, min_eq_left hx]

/-- The score component of the per-pod analysis is `riskScoreValue`. -/
theorem calculateRiskScore_score (issues : List Diagnostics.SecurityIssue)
    (warnings : List Diagnostics.SecurityWarning) :
    (Diagnostics.calculateRiskScore issues warnings).1.score =
      Diagnostics.riskScoreValue issues warnings := by
  unfold Diagnostics.calculateRiskScore
  dsimp only
  split_ifs <;> rfl

/-! ## Claim theorems -/

/-- C1: for issue lists whose severities are drawn from the four-value
enumeration, the security-scan compliance score is
`clamp (100 - Σ weight) 0 100` with weights Critical 10 / High 7 /
Medium 4 / Low 1, and the per-pod security score is
`clamp (100 - Σ issue weight - Σ warning weight) 0 100` with issue weights
Critical 30 / High 20 / Medium 10 / Low 5 and warning weights High 10 /
Medium 5 / Low 2. -/
theorem scores_match_clamp_formula :
    (∀ issues : List Enterprise.SecurityIssue,
       (∀ i ∈ issues, i.severity ∈ severityEnum) →
       Enterprise.calculateComplianceScore issues =
         clamp (100 - (issues.map (fun i => specComplianceWeight i.severity)).sum) 0 100) ∧
    (∀ (issues : List Diagnostics.SecurityIssue) (warnings : List Diagnostics.SecurityWarning),
       (∀ i ∈ issues, i.level ∈ severityEnum) →
       (∀ w ∈ warnings, w.level ∈ severityEnum) →
       (Diagnostics.calculateRiskScore issues warnings).1.score =
         clamp (100 - (issues.map (fun i => specPodIssueWeight i.level)).sum
                    - (warnings.map (fun w => specPodWarningWeight w.level)).sum) 0 100) := by
  constructor
  · intro issues _
    unfold Enterprise.calculateComplianceScore
    rw [complianceFoldl_eq]
    have hnn : 0 ≤ (issues.map (fun i => specComplianceWeight i.severity)).sum := by
      apply List.sum_nonneg
      intro x hx
      rcases List.mem_map.mp hx with ⟨i, _, rfl⟩
      exact specComplianceWeight_nonneg _
    exact floor_eq_clamp _ (by omega)
  · intro issues warnings _ _
    rw [calculateRiskScore_score]
    unfold Diagnostics.riskScoreValue
    dsimp only
    rw [podIssueFoldl_eq, podWarningFoldl_eq]
    have hnn1 : 0 ≤ (issues.map (fun i => specPodIssueWeight i.level)).sum := by
      apply List.sum_nonneg
      intro x hx
      rcases List.mem_map.mp hx with ⟨i, _, rfl⟩
      exact specPodIssueWeight_nonneg _
    have hnn2 : 0 ≤ (warnings.map (fun w => specPodWarningWeight w.level)).sum := by
      apply List.sum_nonneg
      intro x hx
      rcases List.mem_map.mp hx with ⟨w, _, rfl⟩
      exact specPodWarningWeight_nonneg _
    exact floor_eq_clamp _ (by omega)

/-- Witness for C1: the clamp formula evaluated on concrete issue and
warning lists. -/
theorem scores_match_clamp_formula_witness :
    (∀ i ∈ ([⟨"T", "Critical", "r", "d", "x"⟩, ⟨"T", "Low", "r", "d", "x"⟩] :
        List Enterprise.SecurityIssue), i.severity ∈ severityEnum) ∧
    Enterprise.calculateComplianceScore
        [⟨"T", "Critical", "r", "d", "x"⟩, ⟨"T", "Low", "r", "d", "x"⟩] =
      clamp (100 - (([⟨"T", "Critical", "r", "d", "x"⟩, ⟨"T", "Low", "r", "d", "x"⟩] :
        List Enterprise.SecurityIssue).map (fun i => specComplianceWeight i.severity)).sum) 0 100 ∧
    (∀ i ∈ ([⟨"High", "t", "d", "m"⟩] : List Diagnostics.SecurityIssue),
        i.level ∈ severityEnum) ∧
    (∀ w ∈ ([⟨"Medium", "t", "d"⟩] : List Diagnostics.SecurityWarning),
        w.level ∈ severityEnum) ∧
    (Diagnostics.calculateRiskScore [⟨"High", "t", "d", "m"⟩] [⟨"Medium", "t", "d"⟩]).1.score =
      clamp (100 - (([⟨"High", "t", "d", "m"⟩] : List Diagnostics.SecurityIssue).map
                      (fun i => specPodIssueWeight i.level)).sum
                 - (([⟨"Medium", "t", "d"⟩] : List Diagnostics.SecurityWarning).map
                      (fun w => specPodWarningWeight w.level)).sum) 0 100 :=
  ⟨by decide,
   scores_match_clamp_formula.1 _ (by decide),
   by decide, by decide,
   scores_match_clamp_formula.2 _ _ (by decide) (by decide)⟩

/-- C2: the dispatcher scans the registry in registration order and
returns the result of `Remediate` on the first remediator whose `CanFix`
accepts the issue type; no later remediator contributes. -/
theorem autoRemediate_selects_first_match :
    ∀ (remediators : List Automation.Remediator) (issueType resource nspace : String)
      (r : Automation.Remediator),
      remediators.find? (fun x => x.canFix issueType) = some r →
      Automation.AutoRemediate remediators issueType resource nspace =
        r.remediate resource nspace := by
  intro remediators issueType resource nspace
  induction remediators with
  | nil => intro r h; simp [List.find?] at h
  | cons head rest ih =>
      intro r h
      cases hc : head.canFix issueType with
      | true =>
          rw [List.find?_cons, hc] at h
          simp only [Option.some.injEq] at h
          subst h
          simp [Automation.AutoRemediate, hc]
      | false =>
          rw [List.find?_cons, hc] at h
          simp only [Automation.AutoRemediate, hc, Bool.false_eq_true, if_false]
          exact ih r h

/-- Witness for C2: with the registry `[R1, R2]`, both supporting
`CrashLoopBackOff`, dispatching `CrashLoopBackOff` selects `R1`. -/
theorem autoRemediate_selects_first_match_witness :
    Automation.AutoRemediate [R1, R2] "CrashLoopBackOff" "pod-1" "default" =
      R1.remediate "pod-1" "default" :=
  autoRemediate_selects_first_match [R1, R2] "CrashLoopBackOff" "pod-1" "default" R1 rfl

/-- Counterexample for C3: the no-match result's message is
`"No automediation available for issue type: <t>"`, not the claimed
`"no remediation available for issue type <t>"`. -/
theorem autoRemediate_no_match_message_counterexample :
    Automation.AutoRemediate [] "CrashLoopBackOff" "pod-1" "default" =
      (some ⟨false, "none", "pod-1",
        "No automediation available for issue type: CrashLoopBackOff", 0⟩, none) ∧
    "No automediation available for issue type: CrashLoopBackOff" ≠
      "no remediation available for issue type CrashLoopBackOff" :=
  ⟨rfl, by decide⟩

/-- C3 (amended): when no registered remediator's `CanFix` accepts the
issue type, the dispatcher returns `Success=false`, `Action="none"` and
message `"No automediation available for issue type: <t>"`, with a nil
error. -/
theorem autoRemediate_no_match :
    ∀ (remediators : List Automation.Remediator) (issueType resource nspace : String),
      (∀ r ∈ remediators, r.canFix issueType = false) →
      Automation.AutoRemediate remediators issueType resource nspace =
        (some ⟨false, "none", resource,
          "No automediation available for issue type: " ++ issueType, 0⟩, none) := by
  intro remediators issueType resource nspace
  induction remediators with
  | nil => intro _; rfl
  | cons head rest ih =>
      intro h
      have hc : head.canFix issueType = false := h head (List.mem_cons_self _ _)
      simp only [Automation.AutoRemediate, hc, Bool.false_eq_true, if_false]
      exact ih (fun r hr => h r (List.mem_cons_of_mem _ hr))

/-- Witness for C3 (amended): a registry whose only remediator does not
support `OOMKilled`. -/
theorem autoRemediate_no_match_witness :
    (∀ r ∈ [R1], r.canFix "OOMKilled" = false) ∧
    Automation.AutoRemediate [R1] "OOMKilled" "pod-1" "default" =
      (some ⟨false, "none", "pod-1",
        "No automediation available for issue type: OOMKilled", 0⟩, none) :=
  ⟨by decide, autoRemediate_no_match [R1] "OOMKilled" "pod-1" "default" (by decide)⟩

/-- Counterexample for C4: a failed network-policy listing does not abort
the security scan — the scan swallows the error and returns a full report
with a nil error. -/
theorem networkPolicy_failure_not_propagated_counterexample :
    Enterprise.ScanNamespace (.ok []) (.ok []) (.error "connection refused") "prod" =
      .ok ⟨"prod", 0, 0, [], 100, "Low",
        ["Security posture is good - maintain current security practices"]⟩ := rfl

/-- C4 (amended): a failed pod or service listing aborts the security scan
with the wrapped error and no report, and each of the five RBAC listing
failures aborts the RBAC analysis likewise; a failed network-policy
listing does not abort — the scan skips the network-policy check and still
returns a report. -/
theorem listing_failure_propagation :
    (∀ (e : String) (svcsRes : Except String (List Service))
       (npRes : Except String (List NetworkPolicy)) (nspace : String),
       Enterprise.ScanNamespace (.error e) svcsRes npRes nspace =
         .error ("failed to list pods: " ++ e)) ∧
    (∀ (pods : List Pod) (e : String) (npRes : Except String (List NetworkPolicy))
       (nspace : String),
       Enterprise.ScanNamespace (.ok pods) (.error e) npRes nspace =
         .error ("failed to list services: " ++ e)) ∧
    (∀ (pods : List Pod) (svcs : List Service) (e : String) (nspace : String),
       (Enterprise.ScanNamespace (.ok pods) (.ok svcs) (.error e) nspace).isOk = true) ∧
    (∀ (e : String) (r2 : Except String (List Role))
       (r3 : Except String (List ClusterRoleBinding))
       (r4 : Except String (List RoleBinding))
       (r5 : Except String (List ServiceAccount)) (nspace : String),
       Enterprise.AnalyzeNamespaceRBAC (.error e) r2 r3 r4 r5 nspace =
         .error ("failed to list cluster roles: " ++ e)) ∧
    (∀ (l1 : List ClusterRole) (e : String)
       (r3 : Except String (List ClusterRoleBinding))
       (r4 : Except String (List RoleBinding))
       (r5 : Except String (List ServiceAccount)) (nspace : String),
       Enterprise.AnalyzeNamespaceRBAC (.ok l1) (.error e) r3 r4 r5 nspace =
         .error ("failed to list roles: " ++ e)) ∧
    (∀ (l1 : List ClusterRole) (l2 : List Role) (e : String)
       (r4 : Except String (List RoleBinding))
       (r5 : Except String (List ServiceAccount)) (nspace : String),
       Enterprise.AnalyzeNamespaceRBAC (.ok l1) (.ok l2) (.error e) r4 r5 nspace =
         .error ("failed to list cluster role bindings: " ++ e)) ∧
    (∀ (l1 : List ClusterRole) (l2 : List Role) (l3 : List ClusterRoleBinding)
       (e : String) (r5 : Except String (List ServiceAccount)) (nspace : String),
       Enterprise.AnalyzeNamespaceRBAC (.ok l1) (.ok l2) (.ok l3) (.error e) r5 nspace =
         .error ("failed to list role bindings: " ++ e)) ∧
    (∀ (l1 : List ClusterRole) (l2 : List Role) (l3 : List ClusterRoleBinding)
       (l4 : List RoleBinding) (e : String) (nspace : String),
       Enterprise.AnalyzeNamespaceRBAC (.ok l1) (.ok l2) (.ok l3) (.ok l4) (.error e) nspace =
         .error ("failed to list service accounts: " ++ e)) :=
  ⟨fun _ _ _ _ => rfl, fun _ _ _ _ => rfl, fun _ _ _ _ => rfl, fun _ _ _ _ _ _ => rfl,
   fun _ _ _ _ _ _ => rfl, fun _ _ _ _ _ _ => rfl, fun _ _ _ _ _ _ => rfl,
   fun _ _ _ _ _ _ => rfl⟩

/-- Filtering through an if-some-else-none map equals mapping over the
filtered list. -/
theorem filterMap_ite {α β : Type} (d : α → Bool) (g : α → β) (l : List α) :
    (l.filterMap fun a => if d a then some (g a) else none) = (l.filter d).map g := by
  induction l with
  | nil => rfl
  | cons hd tl ihl => cases hc : d hd <;> simp [List.filterMap_cons, List.filter_cons, hc, ihl]

/-- Counterexample for C5: `CAP_SYS_ADMIN` is in the claimed set but the
scan path does not flag it, and `SYS_ADMIN` is in the claimed set but the
per-pod path does not flag it; neither container produces a
dangerous-capability issue. -/
theorem dangerous_capability_counterexample :
    "CAP_SYS_ADMIN" ∈ claimedDangerousCaps ∧
    Enterprise.isDangerousCapability "CAP_SYS_ADMIN" = false ∧
    "SYS_ADMIN" ∈ claimedDangerousCaps ∧
    Diagnostics.isDangerousCapability "SYS_ADMIN" = false ∧
    Enterprise.scanContainer "p"
      ⟨"c", some ⟨none, none, some true, some false, some ⟨["CAP_SYS_ADMIN"]⟩⟩⟩ = [] ∧
    (Diagnostics.analyzeContainer 0
      ⟨"c", some ⟨none, none, some true, some false, some ⟨["SYS_ADMIN"]⟩⟩⟩).1 = [] := by
  decide

/-- C5 (amended): the scan path flags an added capability (High severity)
exactly when it equals one of the eight bare names, the per-pod path
exactly when it equals one of `CAP_SYS_ADMIN`, `CAP_NET_RAW`,
`CAP_SYS_MODULE`, `CAP_SYS_PTRACE`; on each path the dangerous-capability
issues for a container are exactly one High issue per added capability
passing that path's test. -/
theorem dangerous_capability_sets :
    (∀ cap : String, Enterprise.isDangerousCapability cap = true ↔
       cap ∈ ["SYS_ADMIN", "SYS_PTRACE", "SYS_MODULE", "SYS_RAWIO",
              "NET_ADMIN", "NET_RAW", "IPC_LOCK", "DAC_READ_SEARCH"]) ∧
    (∀ cap : String, Diagnostics.isDangerousCapability cap = true ↔
       cap ∈ ["CAP_SYS_ADMIN", "CAP_NET_RAW", "CAP_SYS_MODULE", "CAP_SYS_PTRACE"]) ∧
    (∀ (podName cname : String) (sc : ContainerSecurityContext) (caps : Capabilities),
       sc.capabilities = some caps →
       (Enterprise.scanContainer podName ⟨cname, some sc⟩).filter
           (fun i => i.type == "DangerousCapability") =
         (caps.add.filter Enterprise.isDangerousCapability).map (fun cap =>
           ⟨"DangerousCapability", "High", podName ++ "/" ++ cname,
            "Container has dangerous capability: " ++ cap,
            "Remove dangerous capabilities"⟩)) ∧
    (∀ (i : Nat) (cname : String) (sc : ContainerSecurityContext) (caps : Capabilities),
       sc.capabilities = some caps →
       (Diagnostics.analyzeContainer i ⟨cname, some sc⟩).1.filter
           (fun issue => issue.description == "Container has dangerous capability added") =
         (caps.add.filter Diagnostics.isDangerousCapability).map (fun cap =>
           ⟨"High", "Container " ++ toString i ++ ": Dangerous Capability " ++ cap,
            "Container has dangerous capability added",
            "Remove unnecessary capabilities"⟩)) := by
  refine ⟨?pa, ?pb, ?pc, ?pd⟩
  · intro cap
    simp [Enterprise.isDangerousCapability, List.any_eq_true, beq_iff_eq]
  · intro cap
    simp [Diagnostics.isDangerousCapability, List.any_eq_true, beq_iff_eq]
  · intro podName cname sc caps hcaps
    unfold Enterprise.scanContainer
    dsimp only
    rw [hcaps]
    simp only [List.filter_append]
    rw [filterMap_ite Enterprise.isDangerousCapability (fun cap =>
      (⟨"DangerousCapability", "High", podName ++ "/" ++ cname,
        "Container has dangerous capability: " ++ cap,
        "Remove dangerous capabilities"⟩ : Enterprise.SecurityIssue))]
    rw [List.filter_map]
    cases hp : sc.privileged <;> cases hu : sc.runAsUser <;>
      cases hr : sc.readOnlyRootFilesystem <;>
      simp [apply_ite (List.filter (fun (i : Enterprise.SecurityIssue) =>
        i.type == "DangerousCapability")), Function.comp]
  · intro i cname sc caps hcaps
    unfold Diagnostics.analyzeContainer
    dsimp only
    rw [hcaps]
    simp only [List.filter_append]
    rw [filterMap_ite Diagnostics.isDangerousCapability (fun cap =>
      (⟨"High", "Container " ++ toString i ++ ": Dangerous Capability " ++ cap,
        "Container has dangerous capability added",
        "Remove unnecessary capabilities"⟩ : Diagnostics.SecurityIssue))]
    rw [List.filter_map]
    cases hp : sc.allowPrivilegeEscalation <;> cases hv : sc.privileged <;>
      simp [apply_ite (List.filter (fun (issue : Diagnostics.SecurityIssue) =>
        issue.description == "Container has dangerous capability added")), Function.comp]

/-- Witness for C5 (amended): concrete containers with added capabilities
`SYS_ADMIN` and `CAP_SYS_ADMIN` on each path. -/
theorem dangerous_capability_sets_witness :
    ((⟨none, none, some true, some false, some ⟨["SYS_ADMIN", "CAP_SYS_ADMIN"]⟩⟩ :
        ContainerSecurityContext).capabilities = some ⟨["SYS_ADMIN", "CAP_SYS_ADMIN"]⟩) ∧
    (Enterprise.scanContainer "p"
        ⟨"c", some ⟨none, none, some true, some false,
          some ⟨["SYS_ADMIN", "CAP_SYS_ADMIN"]⟩⟩⟩).filter
        (fun i => i.type == "DangerousCapability") =
      (((⟨["SYS_ADMIN", "CAP_SYS_ADMIN"]⟩ : Capabilities)).add.filter
        Enterprise.isDangerousCapability).map (fun cap =>
          ⟨"DangerousCapability", "High", "p" ++ "/" ++ "c",
           "Container has dangerous capability: " ++ cap,
           "Remove dangerous capabilities"⟩) ∧
    (Diagnostics.analyzeContainer 0
        ⟨"c", some ⟨none, none, some true, some false, some ⟨["CAP_SYS_ADMIN"]⟩⟩⟩).1.filter
        (fun issue => issue.description == "Container has dangerous capability added") =
      (((⟨["CAP_SYS_ADMIN"]⟩ : Capabilities)).add.filter
        Diagnostics.isDangerousCapability).map (fun cap =>
          ⟨"High", "Container " ++ toString 0 ++ ": Dangerous Capability " ++ cap,
           "Container has dangerous capability added",
           "Remove unnecessary capabilities"⟩) :=
  ⟨rfl,
   dangerous_capability_sets.2.2.1 "p" "c" _ _ rfl,
   dangerous_capability_sets.2.2.2 0 "c" _ _ rfl⟩

/-- C6: the three-entry recognized input yields exactly 3 fixes with
confidence 75 and no incremental warning; any input yielding more than 3
fixes gets the incremental warning (boundary strictly greater than 3);
confidence is the constant 75 for every input. -/
theorem fixPlan_boundary_and_confidence :
    (∀ rt rn ns : String,
       (Automation.GenerateFix rt rn ns
         ["Missing resource limits", "High restart count", "Security context missing"]).1.fixes.length = 3 ∧
       (Automation.GenerateFix rt rn ns
         ["Missing resource limits", "High restart count", "Security context missing"]).1.confidence = 75 ∧
       Automation.incrementalWarning ∉ (Automation.GenerateFix rt rn ns
         ["Missing resource limits", "High restart count", "Security context missing"]).1.risks) ∧
    (∀ (rt rn ns : String) (issues : List String),
       3 < (Automation.GenerateFix rt rn ns issues).1.fixes.length →
       Automation.incrementalWarning ∈ (Automation.GenerateFix rt rn ns issues).1.risks) ∧
    (∀ (rt rn ns : String) (issues : List String),
       (Automation.GenerateFix rt rn ns issues).1.confidence = 75) := by
  refine ⟨?pa, ?pb, ?pc⟩
  · intro rt rn ns
    refine ⟨rfl, rfl, ?_⟩
    have hr : (Automation.GenerateFix rt rn ns
        ["Missing resource limits", "High restart count", "Security context missing"]).1.risks =
        ["Medium risk fix: Probe Configuration - may cause temporary downtime"] := rfl
    rw [hr]
    decide
  · intro rt rn ns issues h
    have hr : (Automation.GenerateFix rt rn ns issues).1.risks =
        ((Automation.GenerateFix rt rn ns issues).1.fixes.filterMap (fun fix =>
          if fix.riskLevel = "High" then
            some ("High risk fix: " ++ fix.type ++ " - " ++ fix.description)
          else if fix.riskLevel = "Medium" then
            some ("Medium risk fix: " ++ fix.type ++ " - may cause temporary downtime")
          else none)) ++
        (if (Automation.GenerateFix rt rn ns issues).1.fixes.length > 3 then
          [Automation.incrementalWarning] else []) := rfl
    rw [hr, if_pos h]
    exact List.mem_append_right _ (List.mem_singleton_self _)
  · intro rt rn ns issues
    rfl

/-- Witness for C6: a four-entry recognized input crosses the boundary and
receives the incremental warning. -/
theorem fixPlan_boundary_witness :
    3 < (Automation.GenerateFix "Deployment" "app" "default"
      ["Missing resource limits", "High restart count", "Security context missing",
       "Missing resource limits"]).1.fixes.length ∧
    Automation.incrementalWarning ∈ (Automation.GenerateFix "Deployment" "app" "default"
      ["Missing resource limits", "High restart count", "Security context missing",
       "Missing resource limits"]).1.risks :=
  ⟨by decide,
   fixPlan_boundary_and_confidence.2.1 "Deployment" "app" "default"
     ["Missing resource limits", "High restart count", "Security context missing",
      "Missing resource limits"] (by decide)⟩

/-- Filtering by a predicate that holds whenever the partial map succeeds
does not change the `filterMap`. -/
theorem filterMap_filter_eq {α β : Type} (f : α → Option β) (p : α → Bool)
    (h : ∀ a, p a = false → f a = none) (l : List α) :
    (l.filter p).filterMap f = l.filterMap f := by
  induction l with
  | nil => rfl
  | cons hd tl ihl =>
      cases hp : p hd
      · simp [List.filter_cons, List.filterMap_cons, hp, h hd hp, ihl]
      · simp [List.filter_cons, List.filterMap_cons, hp, ihl]

/-- C7: issue names outside the three-entry table contribute no fix and no
error — the whole plan is unchanged when they are dropped, and the
returned error is always nil. -/
theorem generateFix_drops_unrecognized :
    ∀ (rt rn ns : String) (issues : List String),
      (Automation.GenerateFix rt rn ns issues).2 = none ∧
      Automation.GenerateFix rt rn ns issues =
        Automation.GenerateFix rt rn ns (issues.filter (fun issue =>
          issue == "Missing resource limits" || issue == "High restart count" ||
          issue == "Security context missing")) := by
  intro rt rn ns issues
  refine ⟨rfl, ?_⟩
  unfold Automation.GenerateFix
  dsimp only
  rw [filterMap_filter_eq (fun issue => Automation.generateFixForIssue issue rt rn ns)
    (fun issue => issue == "Missing resource limits" || issue == "High restart count" ||
      issue == "Security context missing") ?_ issues]
  intro a hpa
  simp only [Bool.or_eq_false_iff, beq_eq_false_iff_ne] at hpa
  obtain ⟨⟨h1, h2⟩, h3⟩ := hpa
  simp [Automation.generateFixForIssue, h1, h2, h3]

/-- Counterexample for C8: a pod analysis with zero issues but one warning
(no seccomp profile) scores 95, not 100. -/
theorem zero_issue_score_counterexample :
    (Diagnostics.analyzePodPure ⟨"web", "prod", some ⟨some true, none⟩, []⟩).issues = [] ∧
    (Diagnostics.analyzePodPure ⟨"web", "prod", some ⟨some true, none⟩, []⟩).analysis.score = 95 ∧
    (Diagnostics.analyzePodPure ⟨"web", "prod", some ⟨some true, none⟩, []⟩).analysis.score ≠ 100 := by
  decide

/-- C8 (amended): zero issues give RBAC risk level `Low` and security-scan
score 100 with risk `Low`; the per-pod score is 100 with status `Secure`
when both the issue list and the warning list are empty (warnings alone
can lower the score below 100). -/
theorem zero_issue_scores :
    Enterprise.calculateRiskLevel [] = "Low" ∧
    Enterprise.calculateComplianceScore [] = 100 ∧
    Enterprise.calculateRiskLevelFromScore (Enterprise.calculateComplianceScore []) = "Low" ∧
    (Diagnostics.calculateRiskScore [] []).1.score = 100 ∧
    (Diagnostics.calculateRiskScore [] []).1.status = "Secure" := by
  decide

/-- C9: on both container paths, a container with a nil security context
yields exactly the one missing-security-context issue (and no warnings),
all remaining checks being skipped. -/
theorem nil_container_security_context :
    ∀ (podName : String) (i : Nat) (c : Container),
      c.securityContext = none →
      Enterprise.scanContainer podName c =
        [⟨"MissingContainerSecurityContext", "Medium", podName ++ "/" ++ c.name,
          "Container does not have security context defined",
          "Define container security context with least privilege"⟩] ∧
      Diagnostics.analyzeContainer i c =
        ([⟨"High", "Container " ++ toString i ++ ": No Security Context",
           "Container is running without security context",
           "Add securityContext with readOnlyRootFilesystem and allowPrivilegeEscalation: false"⟩],
         []) := by
  intro podName i c h
  constructor
  · unfold Enterprise.scanContainer
    rw [h]
  · unfold Diagnostics.analyzeContainer
    rw [h]

/-- Witness for C9: a concrete container with no security context. -/
theorem nil_container_security_context_witness :
    ((⟨"c", none⟩ : Container).securityContext = none) ∧
    (Enterprise.scanContainer "p" ⟨"c", none⟩ =
      [⟨"MissingContainerSecurityContext", "Medium", "p" ++ "/" ++ (⟨"c", none⟩ : Container).name,
        "Container does not have security context defined",
        "Define container security context with least privilege"⟩] ∧
     Diagnostics.analyzeContainer 0 ⟨"c", none⟩ =
      ([⟨"High", "Container " ++ toString 0 ++ ": No Security Context",
         "Container is running without security context",
         "Add securityContext with readOnlyRootFilesystem and allowPrivilegeEscalation: false"⟩],
       [])) :=
  ⟨rfl, nil_container_security_context "p" 0 ⟨"c", none⟩ rfl⟩

/-- C10: a High `DefaultServiceAccountBinding` issue is emitted for every
`ClusterRoleBinding` service-account subject whose name contains
`"default"` anywhere, and a Medium `AdminRoleBinding` issue for every
`RoleBinding` whose role reference name contains `"admin"` anywhere. -/
theorem rbac_substring_binding_issues :
    (∀ (bindings : List ClusterRoleBinding) (b : ClusterRoleBinding) (s : Subject),
       b ∈ bindings → s ∈ b.subjects → s.kind = "ServiceAccount" →
       stringsContains s.name "default" = true →
       Enterprise.defaultServiceAccountIssue b.name ∈
         Enterprise.analyzeClusterRoleBindings bindings) ∧
    (∀ (nspace : String) (bindings : List RoleBinding) (b : RoleBinding),
       b ∈ bindings → stringsContains b.roleRef.name "admin" = true →
       Enterprise.adminRoleBindingIssue nspace b.name ∈
         Enterprise.analyzeRoleBindings nspace bindings) := by
  constructor
  · intro bindings b s hb hs hkind hname
    unfold Enterprise.analyzeClusterRoleBindings
    refine List.mem_flatMap.mpr ⟨b, hb, ?_⟩
    refine List.mem_append.mpr (Or.inr ?_)
    refine List.mem_filterMap.mpr ⟨s, hs, ?_⟩
    simp [hkind, hname]
  · intro nspace bindings b hb hname
    unfold Enterprise.analyzeRoleBindings
    refine List.mem_filterMap.mpr ⟨b, hb, ?_⟩
    simp [hname]

/-- Witness for C10: the subject name `my-default-sa` and the role name
`cluster-admin-view` both match by substring. -/
theorem rbac_substring_binding_issues_witness :
    Enterprise.defaultServiceAccountIssue "crb1" ∈
      Enterprise.analyzeClusterRoleBindings
        [⟨"crb1", ⟨"view"⟩, [⟨"ServiceAccount", "my-default-sa"⟩]⟩] ∧
    Enterprise.adminRoleBindingIssue "prod" "rb1" ∈
      Enterprise.analyzeRoleBindings "prod" [⟨"rb1", ⟨"cluster-admin-view"⟩⟩] :=
  ⟨rbac_substring_binding_issues.1
     [⟨"crb1", ⟨"view"⟩, [⟨"ServiceAccount", "my-default-sa"⟩]⟩]
     ⟨"crb1", ⟨"view"⟩, [⟨"ServiceAccount", "my-default-sa"⟩]⟩
     ⟨"ServiceAccount", "my-default-sa"⟩
     (by decide) (by decide) rfl (by decide),
   rbac_substring_binding_issues.2 "prod"
     [⟨"rb1", ⟨"cluster-admin-view"⟩⟩] ⟨"rb1", ⟨"cluster-admin-view"⟩⟩
     (by decide) (by decide)⟩
